import Mathlib

/-!
# Verification of the AVFramedQueue frame-exchange core of liveMediaStreamer

This file gives a shallow embedding of `src/src/AVFramedQueue.cpp`:
the bounded single-producer/single-consumer circular frame queue
(`AVFramedQueue`) together with its two concrete subclasses
(`VideoFrameQueue`, `AudioFrameQueue`), and proves the queue-level
properties stated in the specification.

Modelling conventions:

* The C++ queue stores `Frame*` pointers in a fixed array `frames[0..max)`
  that is pre-allocated at construction and never reallocated.  Pointer
  identity therefore coincides with slot-index identity, so operations
  that return a `Frame*` are embedded as operations returning the slot
  index (a `Nat`); a `NULL` result is embedded as `none`.
* Mutation of the queue state (`rear`, `front`) is embedded as explicit
  state passing: an operation returns its C++ return value paired with
  the updated queue.
* C++ `unsigned` arithmetic on `front`/`rear` stays inside `[0, max)`
  in every operation (each update is reduced `% max`), so `Nat` models
  it exactly and no `% 2^32` reduction is needed.
* The `while` loop of `forceGetRear` is embedded with explicit fuel;
  for any well-formed queue (`max ≥ 2`) the loop executes `flush` at
  most once, so fuel `2` computes the exact C++ behaviour
  (lemma `forceGetRearAux_fuel_irrelevant` below).
-/

set_option autoImplicit false

/-- The wiring 4-tuple identifying a connection:
writer-filter id, reader-filter id, writer id, reader id. -/
structure ConnectionData where
  wFilterId : Int
  rFilterId : Int
  writerId : Int
  readerId : Int
deriving DecidableEq

/-- The slice of frame metadata the queue-level properties need: the
sequence number assigned by the producer. -/
structure Frame where
  sequenceNumber : Nat
deriving DecidableEq

/-- State of `AVFramedQueue`: the connection data, the capacity `max`,
the consumer index `front`, the producer index `rear`, and the
pre-allocated frame slots (total function from slot index to frame). -/
structure AVFramedQueue where
  connectionData : ConnectionData
  max : Nat
  front : Nat
  rear : Nat
  frames : Nat → Frame

namespace AVFramedQueue

/-- `Frame* AVFramedQueue::getRear()`: `NULL` when
`(rear + 1) % max == front`, otherwise the slot `frames[rear]`. -/
def getRear (q : AVFramedQueue) : Option Nat :=
  if (q.rear + 1) % q.max = q.front then none else some q.rear

/-- `Frame* AVFramedQueue::getFront()`: `NULL` when `rear == front`,
otherwise the slot `frames[front]`. -/
def getFront (q : AVFramedQueue) : Option Nat :=
  if q.rear = q.front then none else some q.front

/-- `int AVFramedQueue::addFrame()`: advances `rear` to
`(rear + 1) % max` and returns `connectionData.rFilterId`. -/
def addFrame (q : AVFramedQueue) : Int × AVFramedQueue :=
  (q.connectionData.rFilterId, { q with rear := (q.rear + 1) % q.max })

/-- `int AVFramedQueue::removeFrame()`: advances `front` to
`(front + 1) % max` and returns `connectionData.wFilterId`. -/
def removeFrame (q : AVFramedQueue) : Int × AVFramedQueue :=
  (q.connectionData.wFilterId, { q with front := (q.front + 1) % q.max })

/-- `void AVFramedQueue::flush()`: moves `rear` back by one,
computed as `(rear + (max - 1)) % max`. -/
def flush (q : AVFramedQueue) : AVFramedQueue :=
  { q with rear := (q.rear + (q.max - 1)) % q.max }

/-- The loop body of `forceGetRear`, with explicit fuel:
`while ((frame = getRear()) == NULL) flush();` then return `frame`. -/
def forceGetRearAux : Nat → AVFramedQueue → Option (Nat × AVFramedQueue)
  | 0, _ => none
  | n + 1, q =>
    match q.getRear with
    | some i => some (i, q)
    | none => forceGetRearAux n q.flush

/-- `Frame* AVFramedQueue::forceGetRear()`: runs the loop with fuel `2`,
which is exact for every queue with `max ≥ 2` (one `flush` always
unblocks a full queue; see `forceGetRearAux_fuel_irrelevant`). -/
def forceGetRear (q : AVFramedQueue) : Option (Nat × AVFramedQueue) :=
  forceGetRearAux 2 q

/-- `Frame* AVFramedQueue::forceGetFront()`: unconditionally the slot
`frames[(front + (max - 1)) % max]`. -/
def forceGetFront (q : AVFramedQueue) : Nat :=
  (q.front + (q.max - 1)) % q.max

/-- `const unsigned AVFramedQueue::getElements()`:
`front > rear ? (max - front + rear) : (rear - front)`. -/
def getElements (q : AVFramedQueue) : Nat :=
  if q.front > q.rear then q.max - q.front + q.rear else q.rear - q.front

/-- Producer writing a frame in place through the pointer returned by
`getRear`/`forceGetRear`: stores `f` into slot `i`.  (In the C++ this is
the caller mutating `*frames[i]`; the slot array itself is untouched.) -/
def writeSlot (q : AVFramedQueue) (i : Nat) (f : Frame) : AVFramedQueue :=
  { q with frames := fun j => if j = i then f else q.frames j }

/-- The unread frames, oldest first: slots
`front, (front+1) % max, ...`, `getElements` many. -/
def contents (q : AVFramedQueue) : List Frame :=
  (List.range q.getElements).map fun k => q.frames ((q.front + k) % q.max)

/-- The sequence numbers of the unread frames, oldest first. -/
def seqNums (q : AVFramedQueue) : List Nat :=
  q.contents.map Frame.sequenceNumber

/-- The structural invariant of a queue: `max ≥ 2` and both indices in
`[0, max)` (the spec's FrameQueue invariants). -/
def Inv (q : AVFramedQueue) : Prop :=
  2 ≤ q.max ∧ q.front < q.max ∧ q.rear < q.max

/-- One producer cycle: write a frame with sequence number `s` into the
rear slot, then publish it with `addFrame`. -/
def pub (s : Nat) (q : AVFramedQueue) : AVFramedQueue :=
  ((q.writeSlot q.rear ⟨s⟩).addFrame).2

end AVFramedQueue

/-- States reachable by the producer/consumer protocol: queues start
empty (modelled from the spec: the `FrameQueue` base-class constructor,
not part of the sources here, initialises `front = rear = 0` and the
lifecycle creates queues empty), producers write in place and call
`addFrame` only after a successful `getRear`, consumers call
`removeFrame` only after a successful `getFront`. -/
inductive Reach : AVFramedQueue → Prop where
  | init (cData : ConnectionData) (m : Nat) (f0 : Nat → Frame) :
      2 ≤ m → Reach ⟨cData, m, 0, 0, f0⟩
  | write (q : AVFramedQueue) (i : Nat) (f : Frame) :
      Reach q → Reach (q.writeSlot i f)
  | add (q : AVFramedQueue) :
      Reach q → q.getRear ≠ none → Reach (q.addFrame).2
  | remove (q : AVFramedQueue) :
      Reach q → q.getFront ≠ none → Reach (q.removeFrame).2

namespace AVFramedQueue

/-! ### Basic invariant lemmas -/

theorem inv_reach {q : AVFramedQueue} (h : Reach q) : q.Inv := by
  induction h with
  | init cData m f0 hm => exact ⟨hm, show 0 < m by omega, show 0 < m by omega⟩
  | write q i f _ ih => exact ih
  | add q _ _ ih =>
      obtain ⟨hm, hf, hr⟩ := ih
      exact ⟨hm, hf, Nat.mod_lt _ (by omega)⟩
  | remove q _ _ ih =>
      obtain ⟨hm, hf, hr⟩ := ih
      exact ⟨hm, Nat.mod_lt _ (by omega), hr⟩

theorem getElements_le {q : AVFramedQueue} (h : q.Inv) :
    q.getElements ≤ q.max - 1 := by
  obtain ⟨hm, hf, hr⟩ := h
  unfold getElements
  split <;> omega

theorem getElements_int {q : AVFramedQueue} (h : q.Inv) :
    (q.getElements : Int) = ((q.rear : Int) - (q.front : Int)) % (q.max : Int) := by
  obtain ⟨hm, hf, hr⟩ := h
  unfold getElements
  by_cases hfr : q.front > q.rear
  · rw [if_pos hfr]
    have hmod : ((q.rear : Int) - (q.front : Int)) % (q.max : Int) =
        (q.rear : Int) - (q.front : Int) + (q.max : Int) := by
      have hshift : ((q.rear : Int) - (q.front : Int) + (q.max : Int)) % (q.max : Int) =
          ((q.rear : Int) - (q.front : Int)) % (q.max : Int) := by
        have hb := Int.add_mul_emod_self_left
          (a := (q.rear : Int) - (q.front : Int)) (b := (q.max : Int)) (c := 1)
        rw [mul_one] at hb
        exact hb
      calc ((q.rear : Int) - (q.front : Int)) % (q.max : Int)
          = ((q.rear : Int) - (q.front : Int) + (q.max : Int)) % (q.max : Int) :=
            hshift.symm
        _ = (q.rear : Int) - (q.front : Int) + (q.max : Int) :=
            Int.emod_eq_of_lt (by omega) (by omega)
    rw [hmod]
    omega
  · rw [if_neg hfr]
    rw [Int.emod_eq_of_lt (by omega) (by omega)]
    omega

/-- In a full queue (`(rear + 1) % max == front`) the element count is
`max - 1`. -/
theorem getElements_full {q : AVFramedQueue} (h : q.Inv)
    (hfull : (q.rear + 1) % q.max = q.front) : q.getElements = q.max - 1 := by
  obtain ⟨hm, hf, hr⟩ := h
  unfold getElements
  by_cases hc : q.rear + 1 = q.max
  · have hfr : q.front = 0 := by rw [← hfull, hc, Nat.mod_self]
    split <;> omega
  · have hfr : q.front = q.rear + 1 := by
      rw [← hfull, Nat.mod_eq_of_lt (by omega)]
    split <;> omega

/-- After `flush`, `rear` has moved back by one position on the ring. -/
theorem flush_rear {q : AVFramedQueue} (h : q.Inv) :
    q.flush.rear = if q.rear = 0 then q.max - 1 else q.rear - 1 := by
  obtain ⟨hm, hf, hr⟩ := h
  simp only [flush]
  by_cases h0 : q.rear = 0
  · rw [if_pos h0, h0, Nat.zero_add, Nat.mod_eq_of_lt (by omega)]
  · rw [if_neg h0]
    have he : q.rear + (q.max - 1) = q.max + (q.rear - 1) := by omega
    rw [he, Nat.add_mod_left, Nat.mod_eq_of_lt (by omega)]

/-- Flushing a full queue leaves `max - 2` elements. -/
theorem getElements_flush_full {q : AVFramedQueue} (h : q.Inv)
    (hfull : (q.rear + 1) % q.max = q.front) :
    q.flush.getElements = q.max - 2 := by
  have hm := h.1
  have hf := h.2.1
  have hr := h.2.2
  have hrear := flush_rear h
  have hfl : q.flush.front = q.front := rfl
  have hflm : q.flush.max = q.max := rfl
  unfold getElements
  rw [hfl, hflm, hrear]
  by_cases hc : q.rear + 1 = q.max
  · have hfr : q.front = 0 := by rw [← hfull, hc, Nat.mod_self]
    by_cases h0 : q.rear = 0
    · omega
    · rw [if_neg h0]; split <;> omega
  · have hfr : q.front = q.rear + 1 := by
      rw [← hfull, Nat.mod_eq_of_lt (by omega)]
    by_cases h0 : q.rear = 0
    · rw [if_pos h0]; split <;> omega
    · rw [if_neg h0]; split <;> omega

/-- A full queue with `max ≥ 2` is no longer full after one `flush`. -/
theorem flush_not_full {q : AVFramedQueue} (h : q.Inv)
    (hfull : (q.rear + 1) % q.max = q.front) :
    (q.flush.rear + 1) % q.flush.max ≠ q.flush.front := by
  obtain ⟨hm, hf, hr⟩ := h
  have hne : q.rear ≠ q.front := by
    intro heq
    by_cases hc : q.rear + 1 = q.max
    · rw [hc, Nat.mod_self] at hfull; omega
    · rw [Nat.mod_eq_of_lt (by omega)] at hfull; omega
  simp only [flush]
  rw [Nat.mod_add_mod]
  have he : q.rear + (q.max - 1) + 1 = q.max + q.rear := by omega
  rw [he, Nat.add_mod_left, Nat.mod_eq_of_lt hr]
  exact hne

/-! ### Evaluating `forceGetRear` -/

theorem forceGetRearAux_succ (n : Nat) (q : AVFramedQueue) :
    forceGetRearAux (n + 1) q =
      match q.getRear with
      | some i => some (i, q)
      | none => forceGetRearAux n q.flush := rfl

theorem forceGetRear_of_not_full {q : AVFramedQueue}
    (hnf : (q.rear + 1) % q.max ≠ q.front) :
    q.forceGetRear = some (q.rear, q) := by
  have h1 : q.getRear = some q.rear := by unfold getRear; rw [if_neg hnf]
  show forceGetRearAux (1 + 1) q = some (q.rear, q)
  rw [forceGetRearAux_succ, h1]

theorem forceGetRear_of_full {q : AVFramedQueue} (h : q.Inv)
    (hfull : (q.rear + 1) % q.max = q.front) :
    q.forceGetRear = some (q.flush.rear, q.flush) := by
  have h1 : q.getRear = none := by unfold getRear; rw [if_pos hfull]
  have h2 : q.flush.getRear = some q.flush.rear := by
    unfold getRear; rw [if_neg (flush_not_full h hfull)]
  show forceGetRearAux (1 + 1) q = some (q.flush.rear, q.flush)
  rw [forceGetRearAux_succ, h1]
  show forceGetRearAux (0 + 1) q.flush = some (q.flush.rear, q.flush)
  rw [forceGetRearAux_succ, h2]

/-- For a well-formed queue the `while` loop of `forceGetRear` runs
`flush` at most once, so any fuel of at least 2 computes the same
result: fuel 2 is exact, not a truncation. -/
theorem forceGetRearAux_fuel_irrelevant {q : AVFramedQueue} (h : q.Inv)
    (n : Nat) : forceGetRearAux (n + 2) q = q.forceGetRear := by
  by_cases hfull : (q.rear + 1) % q.max = q.front
  · have h1 : q.getRear = none := by unfold getRear; rw [if_pos hfull]
    have h2 : q.flush.getRear = some q.flush.rear := by
      unfold getRear; rw [if_neg (flush_not_full h hfull)]
    rw [forceGetRear_of_full h hfull]
    show forceGetRearAux (n + 1 + 1) q = some (q.flush.rear, q.flush)
    rw [forceGetRearAux_succ, h1]
    show forceGetRearAux (n + 1) q.flush = some (q.flush.rear, q.flush)
    rw [forceGetRearAux_succ, h2]
  · have h1 : q.getRear = some q.rear := by unfold getRear; rw [if_neg hfull]
    rw [forceGetRear_of_not_full hfull]
    show forceGetRearAux (n + 1 + 1) q = some (q.rear, q)
    rw [forceGetRearAux_succ, h1]

end AVFramedQueue

/-! ### Concrete states for the specification scenarios -/

/-- A sample connection: writer filter 1, reader filter 2, writer id 3,
reader id 4 (the four ids pairwise distinct, to separate the return
values of `addFrame`/`removeFrame`). -/
def cd0 : ConnectionData := ⟨1, 2, 3, 4⟩

/-- An empty queue with `max = 4` (scenario S1/S2 capacity). -/
def emptyQ4 : AVFramedQueue := ⟨cd0, 4, 0, 0, fun _ => ⟨0⟩⟩

/-- The S1/S2 state: three frames with sequence numbers 1, 2, 3
published into the `max = 4` queue, which is then full. -/
def q123 : AVFramedQueue :=
  AVFramedQueue.pub 3 (AVFramedQueue.pub 2 (AVFramedQueue.pub 1 emptyQ4))

/-! ### VideoFrameQueue -/

/-- Modelled from the spec: the `VCodecType` enumeration is declared
outside these sources; the spec lists `{H264, H265, VP8, RAW, …}`.
`VC_NONE` stands for the codecs in the spec's open tail, none of which
the queue setup supports (they fall into the C++ `default:` branch). -/
inductive VCodecType where
  | H264
  | H265
  | VP8
  | RAW
  | VC_NONE
deriving DecidableEq

/-- Modelled from the spec: the `PixType` enumeration, declared outside
these sources; the spec lists `{YUV420P, YUV422P, YUV444P, RGB24, RGBA,
P_NONE, …}`. Only the distinction `P_NONE` versus anything else matters
to the queue code. -/
inductive PixType where
  | YUV420P
  | YUV422P
  | YUV444P
  | RGB24
  | RGBA
  | P_NONE
deriving DecidableEq

/-- The construction-relevant state of a `VideoFrameQueue`: the base
`AVFramedQueue` ring state and the frame payload allocation (done via
the external `InterleavedVideoFrame::createNew`) play no role in the
construction-failure properties, so only the constructor parameters are
kept. -/
structure VideoFrameQueue where
  cData : ConnectionData
  codec : VCodecType
  maxFrames : Nat
  pixelFormat : PixType
deriving DecidableEq

namespace VideoFrameQueue

/-- `bool VideoFrameQueue::setup()`: `H264`/`H265` and `VP8` always
succeed (allocating fixed-size frames), `RAW` fails iff
`pixelFormat == P_NONE`, and any other codec hits the `default:`
branch and fails. -/
def setup (q : VideoFrameQueue) : Bool :=
  match q.codec with
  | .H264 => true
  | .H265 => true
  | .VP8 => true
  | .RAW => if q.pixelFormat = .P_NONE then false else true
  | .VC_NONE => false

/-- `VideoFrameQueue* VideoFrameQueue::createNew(...)`: constructs the
queue, runs `setup`, and returns `NULL` (here `none`) on setup failure.
The `extradata` fields are only stored, never consulted by the queue
logic, and are elided. -/
def createNew (cData : ConnectionData) (codec : VCodecType)
    (maxFrames : Nat) (pixelFormat : PixType) : Option VideoFrameQueue :=
  let q : VideoFrameQueue := ⟨cData, codec, maxFrames, pixelFormat⟩
  if q.setup then some q else none

end VideoFrameQueue

/-! ### AudioFrameQueue -/

/-- Modelled from the spec: the `ACodecType` enumeration, declared
outside these sources; the spec lists exactly
`{OPUS, AAC, MP3, PCM, PCMU, G711}`. -/
inductive ACodecType where
  | OPUS
  | AAC
  | MP3
  | PCM
  | PCMU
  | G711
deriving DecidableEq

/-- Modelled from the spec: the `SampleFmt` enumeration, declared
outside these sources; the spec lists exactly
`{U8, S16, FLT, U8P, S16P, FLTP}`. -/
inductive SampleFmt where
  | U8
  | S16
  | FLT
  | U8P
  | S16P
  | FLTP
deriving DecidableEq

/-- The construction-relevant state of an `AudioFrameQueue`: the
constructor parameters, of which `sampleFormat`, `sampleRate` and
`channels` may be overridden by `setup`.  The base ring state and the
frame payload allocation (external `InterleavedAudioFrame` /
`PlanarAudioFrame` constructors) are elided as in `VideoFrameQueue`. -/
structure AudioFrameQueue where
  cData : ConnectionData
  codec : ACodecType
  maxFrames : Nat
  sampleFormat : SampleFmt
  sampleRate : Nat
  channels : Nat
deriving DecidableEq

namespace AudioFrameQueue

/-- `bool AudioFrameQueue::setup()`, as the state transformer it
performs: `OPUS`/`AAC`/`MP3` force `sampleFormat = S16`; `PCMU`/`PCM`
accept interleaved `{U8, S16, FLT}` or planar `{U8P, S16P, FLTP}`
formats unchanged (the trailing failure branch of the C++ switch is
unreachable for the six-value `SampleFmt` of the spec but kept
faithfully); `G711` forces mono, 8 kHz, `U8`.  The C++ `default:`
failure branch is unreachable because the spec's `ACodecType` is
closed. -/
def setup (q : AudioFrameQueue) : Option AudioFrameQueue :=
  match q.codec with
  | .OPUS => some { q with sampleFormat := .S16 }
  | .AAC => some { q with sampleFormat := .S16 }
  | .MP3 => some { q with sampleFormat := .S16 }
  | .PCMU =>
      if q.sampleFormat = .U8 ∨ q.sampleFormat = .S16 ∨ q.sampleFormat = .FLT then
        some q
      else if q.sampleFormat = .U8P ∨ q.sampleFormat = .S16P ∨ q.sampleFormat = .FLTP then
        some q
      else
        none
  | .PCM =>
      if q.sampleFormat = .U8 ∨ q.sampleFormat = .S16 ∨ q.sampleFormat = .FLT then
        some q
      else if q.sampleFormat = .U8P ∨ q.sampleFormat = .S16P ∨ q.sampleFormat = .FLTP then
        some q
      else
        none
  | .G711 => some { q with channels := 1, sampleRate := 8000, sampleFormat := .U8 }

/-- `AudioFrameQueue* AudioFrameQueue::createNew(...)`: constructs the
queue, runs `setup`, and returns `NULL` (here `none`) on setup failure;
on success the returned queue carries the possibly-overridden
`sampleFormat`, `sampleRate` and `channels`. -/
def createNew (cData : ConnectionData) (codec : ACodecType)
    (maxFrames sampleRate channels : Nat) (sFmt : SampleFmt) :
    Option AudioFrameQueue :=
  setup ⟨cData, codec, maxFrames, sFmt, sampleRate, channels⟩

end AudioFrameQueue

/-! ## The specification claims -/

/-- C1: For every queue state satisfying the FrameQueue invariant
(`max ≥ 2`, `front, rear ∈ [0, max)`), a single call to `forceGetRear`
returns a non-null frame slot, and when the queue is full
(`(rear + 1) % max == front`) it decreases `getElements` by exactly 1. -/
theorem forceGetRear_total_and_drop (q : AVFramedQueue)
    (hm : 2 ≤ q.max) (hf : q.front < q.max) (hr : q.rear < q.max) :
    ∃ i q2, q.forceGetRear = some (i, q2) ∧
      ((q.rear + 1) % q.max = q.front →
        q2.getElements + 1 = q.getElements) := by
  have hInv : q.Inv := ⟨hm, hf, hr⟩
  by_cases hfull : (q.rear + 1) % q.max = q.front
  · refine ⟨q.flush.rear, q.flush,
      AVFramedQueue.forceGetRear_of_full hInv hfull, fun _ => ?_⟩
    rw [AVFramedQueue.getElements_flush_full hInv hfull,
      AVFramedQueue.getElements_full hInv hfull]
    omega
  · exact ⟨q.rear, q, AVFramedQueue.forceGetRear_of_not_full hfull,
      fun hc => absurd hc hfull⟩

theorem forceGetRear_total_and_drop_witness :
    ∃ i q2, q123.forceGetRear = some (i, q2) ∧
      ((q123.rear + 1) % q123.max = q123.front →
        q2.getElements + 1 = q123.getElements) :=
  forceGetRear_total_and_drop q123 (by decide) (by decide) (by decide)

/-- C2: `getRear` is null iff the queue is full
(`(rear + 1) % max == front`), and otherwise returns the pre-allocated
slot at index `rear`; it is embedded as a pure function of the state,
so it changes no queue state.  The S1 instance: with `max = 4` and
3 frames enqueued `getRear` is null, and after one `removeFrame` it is
the slot at index `rear`. -/
theorem getRear_none_iff_full :
    (∀ q : AVFramedQueue,
        (q.getRear = none ↔ (q.rear + 1) % q.max = q.front) ∧
        ((q.rear + 1) % q.max ≠ q.front → q.getRear = some q.rear)) ∧
    q123.getRear = none ∧
    ((q123.removeFrame).2).getRear = some ((q123.removeFrame).2).rear := by
  refine ⟨fun q => ⟨?_, fun hnf => ?_⟩, by decide, by decide⟩
  · unfold AVFramedQueue.getRear
    split <;> simp_all
  · unfold AVFramedQueue.getRear
    rw [if_neg hnf]

theorem getRear_none_iff_full_witness : emptyQ4.getRear = some emptyQ4.rear :=
  (getRear_none_iff_full.1 emptyQ4).2 (by decide)

/-- C3: For every state with `front, rear ∈ [0, max)` and `max ≥ 2`,
`getElements` equals `(rear - front) mod max` (stated over `Int`, where
`%` is the mathematical, nonnegative remainder), and in every state
reachable by the producer/consumer protocol `getElements ≤ max - 1`. -/
theorem getElements_formula :
    (∀ q : AVFramedQueue, 2 ≤ q.max → q.front < q.max → q.rear < q.max →
        (q.getElements : Int) =
          ((q.rear : Int) - (q.front : Int)) % (q.max : Int)) ∧
    (∀ q : AVFramedQueue, Reach q → q.getElements ≤ q.max - 1) :=
  ⟨fun _ hm hf hr => AVFramedQueue.getElements_int ⟨hm, hf, hr⟩,
   fun _ h => AVFramedQueue.getElements_le (AVFramedQueue.inv_reach h)⟩

theorem getElements_formula_witness :
    (emptyQ4.getElements : Int) =
      ((emptyQ4.rear : Int) - (emptyQ4.front : Int)) % (emptyQ4.max : Int) ∧
    emptyQ4.getElements ≤ emptyQ4.max - 1 :=
  ⟨getElements_formula.1 emptyQ4 (by decide) (by decide) (by decide),
   getElements_formula.2 emptyQ4 (Reach.init cd0 4 (fun _ => ⟨0⟩) (by omega))⟩

/-- C4: Drop-newest preserves the oldest frames.  With `max = 4` and the
queue full holding sequence numbers 1, 2, 3 (scenario S2),
`forceGetRear` discards the newest (slot of seq 3, via `flush`) and
returns that slot; 2 elements remain, namely seq 1, 2 in FIFO order, and
publishing seq 4 into the returned slot yields contents 1, 2, 4. -/
theorem drop_newest_scenario :
    q123.getElements = 3 ∧
    (q123.rear + 1) % q123.max = q123.front ∧
    q123.forceGetRear = some (2, q123.flush) ∧
    q123.flush.getElements = 2 ∧
    q123.flush.seqNums = [1, 2] ∧
    (AVFramedQueue.pub 4 q123.flush).seqNums = [1, 2, 4] :=
  ⟨by decide, by decide, rfl, by decide, by decide, by decide⟩

/-- C5 counterexample: `addFrame` does not return the id of the
producing (writer) filter.  On a queue whose connection has
`wFilterId = 1` and `rFilterId = 2`, `addFrame` returns 2. -/
theorem addFrame_returns_reader_not_writer :
    (emptyQ4.addFrame).1 ≠ emptyQ4.connectionData.wFilterId := by decide

/-- C5 (amended): for every queue state, `addFrame` advances `rear` by
exactly 1 mod `max` while leaving `front` and the frames array
unchanged, and returns `connectionData.rFilterId` — the id of the
consuming (reader) filter of the connection, not the producing one. -/
theorem addFrame_effect (q : AVFramedQueue) :
    (q.addFrame).2.rear = (q.rear + 1) % q.max ∧
    (q.addFrame).2.front = q.front ∧
    (q.addFrame).2.frames = q.frames ∧
    (q.addFrame).1 = q.connectionData.rFilterId :=
  ⟨rfl, rfl, rfl, rfl⟩

/-- C6 counterexample: `removeFrame` does not return the `readerId` of
the connection.  On a queue whose connection has `readerId = 4` and
`wFilterId = 1`, `removeFrame` returns 1. -/
theorem removeFrame_returns_writer_not_reader :
    (emptyQ4.removeFrame).1 ≠ emptyQ4.connectionData.readerId := by decide

/-- C6 (amended): for every queue state, `removeFrame` advances `front`
by exactly 1 mod `max` while leaving `rear` and the frames array
unchanged, and returns `connectionData.wFilterId` — the id of the
producing (writer) filter of the connection, not the reader id. -/
theorem removeFrame_effect (q : AVFramedQueue) :
    (q.removeFrame).2.front = (q.front + 1) % q.max ∧
    (q.removeFrame).2.rear = q.rear ∧
    (q.removeFrame).2.frames = q.frames ∧
    (q.removeFrame).1 = q.connectionData.wFilterId :=
  ⟨rfl, rfl, rfl, rfl⟩

/-- C7: Round-trip of `forceGetFront`.  Whenever `getFront` delivers a
frame (so in particular in the claim's situation where the last enqueued
frame is then consumed), it delivers the slot at index `front`, and
after the matching `removeFrame` the call `forceGetFront` returns that
same slot `frames[(front + max - 1) % max]` — pointer identity being
slot-index identity, as the frames array is pre-allocated and never
reallocated. -/
theorem forceGetFront_roundtrip (q : AVFramedQueue)
    (hf : q.front < q.max) (hne : q.getFront ≠ none) :
    q.getFront = some q.front ∧
    ((q.removeFrame).2).forceGetFront = q.front := by
  have hrf : q.rear ≠ q.front := by
    intro heq
    unfold AVFramedQueue.getFront at hne
    rw [if_pos heq] at hne
    exact hne rfl
  constructor
  · unfold AVFramedQueue.getFront
    rw [if_neg hrf]
  · show ((q.front + 1) % q.max + (q.max - 1)) % q.max = q.front
    rw [Nat.mod_add_mod]
    have he : q.front + 1 + (q.max - 1) = q.max + q.front := by omega
    rw [he, Nat.add_mod_left, Nat.mod_eq_of_lt hf]

theorem forceGetFront_roundtrip_witness :
    q123.getFront = some q123.front ∧
    ((q123.removeFrame).2).forceGetFront = q123.front :=
  forceGetFront_roundtrip q123 (by decide) (by decide)

/-- C8: `VideoFrameQueue::createNew` with codec `RAW` and pixel format
`P_NONE` fails setup and returns null, and any codec outside
`{H264, H265, VP8, RAW}` also makes `createNew` return null. -/
theorem videoCreateNew_unsupported_none (cData : ConnectionData) (m : Nat)
    (codec : VCodecType) (pf : PixType)
    (h : codec ≠ .H264 ∧ codec ≠ .H265 ∧ codec ≠ .VP8 ∧ codec ≠ .RAW) :
    VideoFrameQueue.createNew cData .RAW m .P_NONE = none ∧
    VideoFrameQueue.createNew cData codec m pf = none := by
  obtain ⟨h1, h2, h3, h4⟩ := h
  refine ⟨rfl, ?_⟩
  cases codec <;>
    simp_all [VideoFrameQueue.createNew, VideoFrameQueue.setup]

theorem videoCreateNew_unsupported_none_witness :
    VideoFrameQueue.createNew cd0 .RAW 4 .P_NONE = none ∧
    VideoFrameQueue.createNew cd0 .VC_NONE 4 .YUV420P = none :=
  videoCreateNew_unsupported_none cd0 4 .VC_NONE .YUV420P (by decide)

/-- C9: `AudioFrameQueue::createNew` with codec `OPUS` (likewise `AAC`
or `MP3`) succeeds for every connection, capacity, sample rate, channel
count and requested sample format, and the constructed queue's
`sampleFormat` is `S16`; in particular requesting `FLT` yields a queue
whose sample format is `S16`. -/
theorem audioCreateNew_forces_s16 (cData : ConnectionData)
    (m sr ch : Nat) (sFmt : SampleFmt) (codec : ACodecType)
    (h : codec = .OPUS ∨ codec = .AAC ∨ codec = .MP3) :
    ∃ q, AudioFrameQueue.createNew cData codec m sr ch sFmt = some q ∧
      q.sampleFormat = .S16 := by
  rcases h with h | h | h <;> subst h <;> exact ⟨_, rfl, rfl⟩

theorem audioCreateNew_forces_s16_witness :
    ∃ q, AudioFrameQueue.createNew cd0 .OPUS 4 48000 2 .FLT = some q ∧
      q.sampleFormat = .S16 :=
  audioCreateNew_forces_s16 cd0 4 48000 2 .FLT .OPUS (by decide)

/-- C10: `removeFrame` performs no emptiness check.  For every state
with `front == rear` (empty queue, in-range indices, `max ≥ 2`),
`removeFrame` advances `front` past `rear`, after which `getElements`
reports `max - 1`: the queue silently appears almost full instead of
reporting an underflow. -/
theorem removeFrame_empty_underflow (q : AVFramedQueue)
    (hm : 2 ≤ q.max) (hf : q.front < q.max) (he : q.front = q.rear) :
    ((q.removeFrame).2).getElements = q.max - 1 ∧
    ((q.removeFrame).2).front = (q.front + 1) % q.max := by
  refine ⟨?_, rfl⟩
  have h2 : ((q.removeFrame).2).front = (q.front + 1) % q.max := rfl
  have h3 : ((q.removeFrame).2).rear = q.rear := rfl
  have h4 : ((q.removeFrame).2).max = q.max := rfl
  unfold AVFramedQueue.getElements
  rw [h2, h3, h4]
  by_cases hc : q.front + 1 = q.max
  · rw [hc, Nat.mod_self]
    split <;> omega
  · rw [Nat.mod_eq_of_lt (by omega)]
    split <;> omega

theorem removeFrame_empty_underflow_witness :
    ((emptyQ4.removeFrame).2).getElements = emptyQ4.max - 1 ∧
    ((emptyQ4.removeFrame).2).front = (emptyQ4.front + 1) % emptyQ4.max :=
  removeFrame_empty_underflow emptyQ4 (by decide) (by decide) (by decide)
